import Mathlib

-- Shallow embedding of src/static/admin.js: an anonymous IIFE that reads
-- three window globals (with a falsy-to-empty-array fallback), looks up two
-- DOM elements by id, and for each element present constructs one Chart.

/-- JavaScript values that can appear in the window globals.  Arrays may
nest arbitrary values; `nan` is the NaN number. -/
inductive JSValue where
  | undefined
  | null
  | bool (b : Bool)
  | num (n : Int)
  | nan
  | str (s : String)
  | arr (xs : List JSValue)

/-- JavaScript truthiness: `undefined`, `null`, `false`, `0`, `NaN` and the
empty string are falsy; every other value, arrays included, is truthy. -/
def jsTruthy : JSValue → Bool
  | .undefined => false
  | .null => false
  | .bool b => b
  | .num n => n != 0
  | .nan => false
  | .str s => !s.isEmpty
  | .arr _ => true

/-- The JavaScript `||` operator: the left operand if truthy, else the right. -/
def jsOr (a b : JSValue) : JSValue :=
  if jsTruthy a then a else b

/-- An opaque handle for a DOM element returned by `document.getElementById`. -/
abbrev Elem := Nat

/-- The window globals read by the script: `window.__labels`,
`window.__orderCounts`, `window.__revenues`. -/
structure WindowState where
  labels : JSValue
  orderCounts : JSValue
  revenues : JSValue

/-- One entry of a chart configuration's `datasets` array. -/
structure Dataset where
  label : String
  data : JSValue

/-- The configuration object passed to the `Chart` constructor. -/
structure ChartConfig where
  type : String
  labels : JSValue
  datasets : List Dataset
  responsive : Bool

/-- A constructed chart instance: the element it was attached to and its
configuration. -/
structure Chart where
  ctx : Elem
  config : ChartConfig

/-- `const labels = window.__labels || [];` (line 2). -/
def effLabels (w : WindowState) : JSValue :=
  jsOr w.labels (.arr [])

/-- `const orderCounts = window.__orderCounts || [];` (line 3). -/
def effOrderCounts (w : WindowState) : JSValue :=
  jsOr w.orderCounts (.arr [])

/-- `const revenues = window.__revenues || [];` (line 4). -/
def effRevenues (w : WindowState) : JSValue :=
  jsOr w.revenues (.arr [])

/-- Lines 6-16: if `getElementById "ordersChart"` yielded an element, build
the line chart `⟨ctx, { type: "line", data: { labels, datasets: [{ label:
"Orders", data: orderCounts }] }, options: { responsive: true } }⟩`. -/
def ordersChartOf (w : WindowState) (ctx : Option Elem) : List Chart :=
  match ctx with
  | some e => [⟨e, ⟨"line", effLabels w, [⟨"Orders", effOrderCounts w⟩], true⟩⟩]
  | none => []

/-- Lines 18-28: if `getElementById "revenueChart"` yielded an element, build
the bar chart with the `"Revenue (KRW)"` dataset over `revenues`. -/
def revenueChartOf (w : WindowState) (ctx : Option Elem) : List Chart :=
  match ctx with
  | some e => [⟨e, ⟨"bar", effLabels w, [⟨"Revenue (KRW)", effRevenues w⟩], true⟩⟩]
  | none => []

/-- The whole IIFE.  `dom` is `document.getElementById` (returning `none`
for a missing element).  The script assigns no global, so the window state
is returned unchanged alongside the list of charts constructed, in
construction order. -/
def initCharts (w : WindowState) (dom : String → Option Elem) :
    WindowState × List Chart :=
  (w, ordersChartOf w (dom "ordersChart") ++ revenueChartOf w (dom "revenueChart"))

-- Concrete fixtures used to instantiate the general theorems.

/-- A window state with all three globals undefined. -/
def sampleWindow : WindowState := ⟨.undefined, .undefined, .undefined⟩

/-- A window state with one-element arrays in all three globals. -/
def sampleArrays : WindowState :=
  ⟨.arr [.str "2024-01"], .arr [.num 10], .arr [.num 1000]⟩

/-- A window state with mismatched-length arrays. -/
def mismatchedArrays : WindowState :=
  ⟨.arr [.str "2024-01"], .arr [.num 10, .num 20], .arr []⟩

/-- A DOM in which only the "ordersChart" element is present. -/
def ordersOnlyDom : String → Option Elem :=
  fun s => if s = "ordersChart" then some 0 else none

/-- A DOM with both chart elements present. -/
def bothDom : String → Option Elem :=
  fun s => if s = "ordersChart" then some 0
           else if s = "revenueChart" then some 1 else none

/-- A DOM with no elements at all. -/
def emptyDom : String → Option Elem := fun _ => none

/-- The orders chart the script builds from `sampleWindow` on element 0. -/
def sampleOrdersChart : Chart :=
  ⟨0, ⟨"line", effLabels sampleWindow, [⟨"Orders", effOrderCounts sampleWindow⟩], true⟩⟩

-- Shared helper lemmas.

/-- In any run, every constructed chart is either the orders line chart or
the revenue bar chart of that run. -/
theorem mem_initCharts {w : WindowState} {dom : String → Option Elem} {c : Chart}
    (hc : c ∈ (initCharts w dom).2) :
    c.config = ⟨"line", effLabels w, [⟨"Orders", effOrderCounts w⟩], true⟩ ∨
    c.config = ⟨"bar", effLabels w, [⟨"Revenue (KRW)", effRevenues w⟩], true⟩ := by
  unfold initCharts at hc
  rcases List.mem_append.mp hc with h | h
  · left
    unfold ordersChartOf at h
    cases hd : dom "ordersChart" <;> rw [hd] at h <;> simp at h
    rw [h]
  · right
    unfold revenueChartOf at h
    cases hd : dom "revenueChart" <;> rw [hd] at h <;> simp at h
    rw [h]

/-- A run contains a line-typed chart exactly when the "ordersChart" element
is present. -/
theorem anyLine_iff (w : WindowState) (dom : String → Option Elem) :
    ((initCharts w dom).2.any fun c => c.config.type == "line") =
      (dom "ordersChart").isSome := by
  unfold initCharts
  cases h1 : dom "ordersChart" <;> cases h2 : dom "revenueChart" <;>
    simp [ordersChartOf, revenueChartOf]

/-- A run contains a bar-typed chart exactly when the "revenueChart" element
is present. -/
theorem anyBar_iff (w : WindowState) (dom : String → Option Elem) :
    ((initCharts w dom).2.any fun c => c.config.type == "bar") =
      (dom "revenueChart").isSome := by
  unfold initCharts
  cases h1 : dom "ordersChart" <;> cases h2 : dom "revenueChart" <;>
    simp [ordersChartOf, revenueChartOf]

-- Claim theorems.

/-- C6: the routine does not mutate the window globals: the window state
after the run is exactly the state before, and the only output is the list
of constructed charts. -/
theorem initCharts_no_mutation (w : WindowState) (dom : String → Option Elem) :
    (initCharts w dom).1 = w := rfl

/-- C8: the routine terminates (it is a total function) having constructed
at most two charts, whatever the DOM state and the window globals. -/
theorem initCharts_at_most_two (w : WindowState) (dom : String → Option Elem) :
    (initCharts w dom).2.length ≤ 2 := by
  unfold initCharts
  cases h1 : dom "ordersChart" <;> cases h2 : dom "revenueChart" <;>
    simp [ordersChartOf, revenueChartOf]

/-- C4: on labels ["2024-01","2024-02"], orderCounts [10,20], revenues
[1000,2000], with both elements present, exactly one line chart with data
[10,20] and one bar chart with data [1000,2000] are built, both over the
two month labels. -/
theorem initCharts_example :
    (initCharts
        ⟨.arr [.str "2024-01", .str "2024-02"],
         .arr [.num 10, .num 20],
         .arr [.num 1000, .num 2000]⟩
        (fun s => if s = "ordersChart" then some 0
                  else if s = "revenueChart" then some 1 else none)).2 =
      [⟨0, ⟨"line", .arr [.str "2024-01", .str "2024-02"],
            [⟨"Orders", .arr [.num 10, .num 20]⟩], true⟩⟩,
       ⟨1, ⟨"bar", .arr [.str "2024-01", .str "2024-02"],
            [⟨"Revenue (KRW)", .arr [.num 1000, .num 2000]⟩], true⟩⟩] := rfl

/-- C1: with both target elements present and three equal-length arrays in
the globals, exactly two charts are built: first the line chart whose single
dataset holds the order-count series, then the bar chart whose single
dataset holds the revenue series, both over the same label series and with
the responsive option set. -/
theorem initCharts_both_present (w : WindowState) (dom : String → Option Elem)
    (e1 e2 : Elem) (ls oc rv : List JSValue)
    (h1 : dom "ordersChart" = some e1) (h2 : dom "revenueChart" = some e2)
    (hl : w.labels = .arr ls) (ho : w.orderCounts = .arr oc)
    (hr : w.revenues = .arr rv)
    (hlen : ls.length = oc.length ∧ ls.length = rv.length) :
    (initCharts w dom).2 =
      [⟨e1, ⟨"line", .arr ls, [⟨"Orders", .arr oc⟩], true⟩⟩,
       ⟨e2, ⟨"bar", .arr ls, [⟨"Revenue (KRW)", .arr rv⟩], true⟩⟩] := by
  simp [initCharts, ordersChartOf, revenueChartOf, effLabels, effOrderCounts,
    effRevenues, jsOr, jsTruthy, h1, h2, hl, ho, hr]

/-- Witness for C1 at a concrete equal-length input with both elements. -/
theorem initCharts_both_present_witness :
    (initCharts sampleArrays bothDom).2 =
      [⟨0, ⟨"line", .arr [.str "2024-01"], [⟨"Orders", .arr [.num 10]⟩], true⟩⟩,
       ⟨1, ⟨"bar", .arr [.str "2024-01"], [⟨"Revenue (KRW)", .arr [.num 1000]⟩], true⟩⟩] :=
  initCharts_both_present sampleArrays bothDom 0 1
    [.str "2024-01"] [.num 10] [.num 1000] rfl rfl rfl rfl rfl ⟨rfl, rfl⟩

/-- C2: when a target element is absent the corresponding chart is not
constructed (no chart of its type appears), the run still completes (it
yields a value, raising nothing and logging nothing), and the output is
exactly the other element's part, which depends only on that other
element's lookup. -/
theorem initCharts_absent_target (w : WindowState) (dom : String → Option Elem) :
    (dom "ordersChart" = none →
      ((initCharts w dom).2.any fun c => c.config.type == "line") = false ∧
      (initCharts w dom).2 = revenueChartOf w (dom "revenueChart")) ∧
    (dom "revenueChart" = none →
      ((initCharts w dom).2.any fun c => c.config.type == "bar") = false ∧
      (initCharts w dom).2 = ordersChartOf w (dom "ordersChart")) := by
  constructor
  · intro h
    refine ⟨?_, ?_⟩
    · rw [anyLine_iff, h]; rfl
    · simp [initCharts, ordersChartOf, h]
  · intro h
    refine ⟨?_, ?_⟩
    · rw [anyBar_iff, h]; rfl
    · simp [initCharts, revenueChartOf, h]

/-- Witness for C2 on a DOM with no elements. -/
theorem initCharts_absent_target_witness :
    ((initCharts sampleWindow emptyDom).2.any fun c => c.config.type == "line") = false ∧
    (initCharts sampleWindow emptyDom).2 =
      revenueChartOf sampleWindow (emptyDom "revenueChart") :=
  (initCharts_absent_target sampleWindow emptyDom).1 rfl

/-- C3: each global that is undefined is replaced by the empty array, each
global that is an array is used as given, and the run completes: every
constructed chart carries exactly the substituted series. -/
theorem initCharts_undefined_fallback (w : WindowState) :
    (w.labels = .undefined → effLabels w = .arr []) ∧
    (∀ xs, w.labels = .arr xs → effLabels w = .arr xs) ∧
    (w.orderCounts = .undefined → effOrderCounts w = .arr []) ∧
    (∀ xs, w.orderCounts = .arr xs → effOrderCounts w = .arr xs) ∧
    (w.revenues = .undefined → effRevenues w = .arr []) ∧
    (∀ xs, w.revenues = .arr xs → effRevenues w = .arr xs) ∧
    (∀ dom (c : Chart), c ∈ (initCharts w dom).2 →
      c.config = ⟨"line", effLabels w, [⟨"Orders", effOrderCounts w⟩], true⟩ ∨
      c.config = ⟨"bar", effLabels w, [⟨"Revenue (KRW)", effRevenues w⟩], true⟩) := by
  refine ⟨?_, ?_, ?_, ?_, ?_, ?_, fun dom c hc => mem_initCharts hc⟩
  · intro h; simp [effLabels, jsOr, jsTruthy, h]
  · intro xs h; simp [effLabels, jsOr, jsTruthy, h]
  · intro h; simp [effOrderCounts, jsOr, jsTruthy, h]
  · intro xs h; simp [effOrderCounts, jsOr, jsTruthy, h]
  · intro h; simp [effRevenues, jsOr, jsTruthy, h]
  · intro xs h; simp [effRevenues, jsOr, jsTruthy, h]

/-- Witness for C3: labels and revenues undefined fall back to the empty
array while a defined order-count array is used as given. -/
theorem initCharts_undefined_fallback_witness :
    effLabels ⟨.undefined, .arr [.num 7], .undefined⟩ = .arr [] ∧
    effOrderCounts ⟨.undefined, .arr [.num 7], .undefined⟩ = .arr [.num 7] ∧
    effRevenues ⟨.undefined, .arr [.num 7], .undefined⟩ = .arr [] :=
  ⟨(initCharts_undefined_fallback ⟨.undefined, .arr [.num 7], .undefined⟩).1 rfl,
   (initCharts_undefined_fallback ⟨.undefined, .arr [.num 7], .undefined⟩).2.2.2.1
     [.num 7] rfl,
   (initCharts_undefined_fallback ⟨.undefined, .arr [.num 7], .undefined⟩).2.2.2.2.1 rfl⟩

/-- C5: no validation or transformation: whatever arrays sit in the globals,
mismatched lengths included, the label series and each numeric series placed
into the chart configurations are exactly the input sequences. -/
theorem initCharts_passthrough (w : WindowState) (dom : String → Option Elem)
    (e1 e2 : Elem) (ls oc rv : List JSValue)
    (h1 : dom "ordersChart" = some e1) (h2 : dom "revenueChart" = some e2)
    (hl : w.labels = .arr ls) (ho : w.orderCounts = .arr oc)
    (hr : w.revenues = .arr rv) :
    (initCharts w dom).2 =
      [⟨e1, ⟨"line", w.labels, [⟨"Orders", w.orderCounts⟩], true⟩⟩,
       ⟨e2, ⟨"bar", w.labels, [⟨"Revenue (KRW)", w.revenues⟩], true⟩⟩] := by
  simp [initCharts, ordersChartOf, revenueChartOf, effLabels, effOrderCounts,
    effRevenues, jsOr, jsTruthy, h1, h2, hl, ho, hr]

/-- Witness for C5 at a mismatched-length input: one label, two order
counts, zero revenues, all passed through unchanged. -/
theorem initCharts_passthrough_witness :
    (initCharts mismatchedArrays bothDom).2 =
      [⟨0, ⟨"line", mismatchedArrays.labels,
            [⟨"Orders", mismatchedArrays.orderCounts⟩], true⟩⟩,
       ⟨1, ⟨"bar", mismatchedArrays.labels,
            [⟨"Revenue (KRW)", mismatchedArrays.revenues⟩], true⟩⟩] :=
  initCharts_passthrough mismatchedArrays bothDom 0 1
    [.str "2024-01"] [.num 10, .num 20] [] rfl rfl rfl rfl rfl

/-- C7: whether a target's chart is constructed depends only on that
target element's presence: two runs agreeing on one element's presence
agree on whether that element's chart (identified by its fixed type) is
built, whatever the globals and the other element. -/
theorem initCharts_branch_on_presence (w1 w2 : WindowState)
    (dom1 dom2 : String → Option Elem) :
    ((dom1 "ordersChart").isSome = (dom2 "ordersChart").isSome →
      ((initCharts w1 dom1).2.any fun c => c.config.type == "line") =
      ((initCharts w2 dom2).2.any fun c => c.config.type == "line")) ∧
    ((dom1 "revenueChart").isSome = (dom2 "revenueChart").isSome →
      ((initCharts w1 dom1).2.any fun c => c.config.type == "bar") =
      ((initCharts w2 dom2).2.any fun c => c.config.type == "bar")) := by
  constructor
  · intro h; rw [anyLine_iff, anyLine_iff, h]
  · intro h; rw [anyBar_iff, anyBar_iff, h]

/-- Witness for C7: two runs with different globals and different DOMs that
agree only on the presence of "ordersChart" build the line chart alike. -/
theorem initCharts_branch_on_presence_witness :
    ((initCharts sampleArrays bothDom).2.any fun c => c.config.type == "line") =
    ((initCharts sampleWindow ordersOnlyDom).2.any fun c => c.config.type == "line") :=
  (initCharts_branch_on_presence sampleArrays sampleWindow bothDom ordersOnlyDom).1 rfl

/-- C9: the fallback fires on every falsy global, not only undefined (null,
false, 0, NaN and the empty string all yield the empty array), while any
truthy global, array or not, is forwarded unchanged. -/
theorem fallback_on_falsy (w : WindowState) :
    (jsTruthy w.labels = false → effLabels w = .arr []) ∧
    (jsTruthy w.labels = true → effLabels w = w.labels) ∧
    (jsTruthy w.orderCounts = false → effOrderCounts w = .arr []) ∧
    (jsTruthy w.orderCounts = true → effOrderCounts w = w.orderCounts) ∧
    (jsTruthy w.revenues = false → effRevenues w = .arr []) ∧
    (jsTruthy w.revenues = true → effRevenues w = w.revenues) ∧
    (jsTruthy .null = false ∧ jsTruthy (.bool false) = false ∧
     jsTruthy (.num 0) = false ∧ jsTruthy .nan = false ∧
     jsTruthy (.str "") = false ∧ jsTruthy (.str "x") = true ∧
     jsTruthy (.num 5) = true ∧ jsTruthy (.bool true) = true) := by
  refine ⟨?_, ?_, ?_, ?_, ?_, ?_, by decide⟩ <;>
    · intro h
      simp [effLabels, effOrderCounts, effRevenues, jsOr, h]

/-- Witness for C9: a null label series falls back to the empty array and a
truthy non-array order-count series (a string) is forwarded unchanged. -/
theorem fallback_on_falsy_witness :
    effLabels ⟨.null, .str "oops", .num 0⟩ = .arr [] ∧
    effOrderCounts ⟨.null, .str "oops", .num 0⟩ = .str "oops" ∧
    effRevenues ⟨.null, .str "oops", .num 0⟩ = .arr [] :=
  ⟨(fallback_on_falsy ⟨.null, .str "oops", .num 0⟩).1 rfl,
   (fallback_on_falsy ⟨.null, .str "oops", .num 0⟩).2.2.2.1 rfl,
   (fallback_on_falsy ⟨.null, .str "oops", .num 0⟩).2.2.2.2.1 rfl⟩

/-- C10: every constructed chart configuration holds exactly one dataset,
whose label is the fixed constant "Orders" on the line chart and
"Revenue (KRW)" on the bar chart, whatever the input arrays. -/
theorem datasets_singleton_fixed_label (w : WindowState)
    (dom : String → Option Elem) (c : Chart) (hc : c ∈ (initCharts w dom).2) :
    c.config.datasets.length = 1 ∧
    ((c.config.type = "line" ∧ c.config.datasets.map Dataset.label = ["Orders"]) ∨
     (c.config.type = "bar" ∧
       c.config.datasets.map Dataset.label = ["Revenue (KRW)"])) := by
  rcases mem_initCharts hc with h | h <;> rw [h] <;> simp

/-- Witness for C10 on the line chart built when only "ordersChart" exists. -/
theorem datasets_singleton_fixed_label_witness :
    sampleOrdersChart.config.datasets.length = 1 ∧
    ((sampleOrdersChart.config.type = "line" ∧
      sampleOrdersChart.config.datasets.map Dataset.label = ["Orders"]) ∨
     (sampleOrdersChart.config.type = "bar" ∧
      sampleOrdersChart.config.datasets.map Dataset.label = ["Revenue (KRW)"])) :=
  datasets_singleton_fixed_label sampleWindow ordersOnlyDom sampleOrdersChart
    (List.Mem.head [])
